import Mathlib

/-!
Verification development for the airport flight scheduler
(src/AirportManagementSystem.cpp).

The embedding below models, from the source:
  * the `Flight` record and its constructor (status starts `"waiting"`,
    the HH:MM time string becomes minutes since midnight);
  * `FlightComparator::operator()` (five-minute tolerance window,
    priority inside the window, time outside it);
  * the admission queue `std::priority_queue<Flight, vector, FlightComparator>`
    as a binary max-heap over a list in array layout, with the standard
    sift-up on push and move-last-to-root plus sift-down on pop;
  * the `Runway` resource slot with `assignFlight` / `release`;
  * the shared state of `AirportManager` (runway pool, flight queue,
    shutdown flag) with `addFlight`;
  * one iteration of the dispatcher loop `processRunway`, whose body
    runs under the queue lock and is therefore modelled as one atomic
    step function: the condition-variable wait predicate, the
    shutdown-and-empty exit, and the top/pop/process/release path.
-/

/-- Flight record of class `Flight`: id, category string, priority,
requested time in minutes since midnight, and a status string. -/
structure Flight where
  id : Int
  type : String
  priority : Int
  timeInMinutes : Int
  status : String
deriving DecidableEq

/-- Default flight, used only as the out-of-range default value of
list indexing inside the heap algorithms; in-range accesses never
select it. -/
def defFlight : Flight :=
  { id := 0, type := "", priority := 0, timeInMinutes := 0, status := "" }

/-- Split a character list at the first colon, dropping the colon;
auxiliary for the time parse. -/
def splitAtColon : List Char → List Char × List Char
  | [] => ([], [])
  | c :: rest =>
    if c = ':' then ([], rest)
    else
      let p := splitAtColon rest
      (c :: p.1, p.2)

/-- Read a digit string as a natural number, most significant digit
first; auxiliary for the time parse. -/
def parseNat (cs : List Char) : Nat :=
  cs.foldl (fun acc c => acc * 10 + (c.toNat - '0'.toNat)) 0

/-- Parse an HH:MM time string into hours and minutes, as
`sscanf(timeStr, "%d:%d", ...)` does on the well-formed input that the
input boundary guarantees (section 6 of the specification: the core
assumes a well-formed flight descriptor on entry). -/
def parseTime (timeStr : String) : Int × Int :=
  let p := splitAtColon timeStr.toList
  ((parseNat p.1 : Nat), (parseNat p.2 : Nat))

/-- Constructor `Flight::Flight`: the status field starts as
`"waiting"` and the requested time is `hours * 60 + minutes`. -/
def Flight.create (id : Int) (type : String) (priority : Int) (timeStr : String) : Flight :=
  let hm := parseTime timeStr
  { id := id, type := type, priority := priority,
    timeInMinutes := hm.1 * 60 + hm.2, status := "waiting" }

/-- `TIME_SCALE_FACTOR`: one real second stands for one simulated
minute. -/
def TIME_SCALE_FACTOR : Int := 60

/-- `TAKEOFF_TIME`: base takeoff duration, five minutes in seconds. -/
def TAKEOFF_TIME : Int := 300

/-- `LANDING_TIME`: base landing duration, five minutes in seconds. -/
def LANDING_TIME : Int := 300

/-- `FlightComparator::operator()`: when the two requested times are
within five minutes of each other compare by priority, otherwise a
later requested time compares as smaller.  `std::priority_queue` keeps
the maximum element of this ordering at its top. -/
def FlightComparator (f1 f2 : Flight) : Bool :=
  let timeDiff : Nat := (f1.timeInMinutes - f2.timeInMinutes).natAbs
  if timeDiff ≤ 5 then f1.priority < f2.priority
  else f1.timeInMinutes > f2.timeInMinutes

/-- Scaled processing duration in real seconds, exactly as computed in
`processRunway`: the category's base time divided by the scale
factor. -/
def processingTime (f : Flight) : Int :=
  (if f.type = "takeoff" then TAKEOFF_TIME else LANDING_TIME) / TIME_SCALE_FACTOR

/-- Swap two positions of a list (`std::swap` inside the heap
algorithms). -/
def listSwap (l : List Flight) (i j : Nat) : List Flight :=
  (l.set i (l.getD j defFlight)).set j (l.getD i defFlight)

/-- Sift the element at index `i` up towards the root of the binary
heap, comparing against the parent at `(i - 1) / 2`, as
`std::push_heap` does.  The walk strictly decreases the index, so a
fuel of `i` steps always suffices and the fuel never runs out. -/
def siftUpFuel (c : Flight → Flight → Bool) : Nat → List Flight → Nat → List Flight
  | 0, l, _ => l
  | _ + 1, l, 0 => l
  | fuel + 1, l, i + 1 =>
    let p := i / 2
    if c (l.getD p defFlight) (l.getD (i + 1) defFlight) then
      siftUpFuel c fuel (listSwap l p (i + 1)) p
    else l

/-- Sift-up entry point with sufficient fuel. -/
def siftUp (c : Flight → Flight → Bool) (l : List Flight) (i : Nat) : List Flight :=
  siftUpFuel c i l i

/-- Sift the element at index `i` down towards the leaves of the
binary heap, swapping with the larger child, as the re-heapify after
`std::pop_heap` does.  The walk strictly increases the index, so a
fuel of `l.length` steps always suffices. -/
def siftDownFuel (c : Flight → Flight → Bool) : Nat → List Flight → Nat → List Flight
  | 0, l, _ => l
  | fuel + 1, l, i =>
    let n := l.length
    let left := 2 * i + 1
    let right := 2 * i + 2
    let cand := if left < n && c (l.getD i defFlight) (l.getD left defFlight) then left else i
    let largest :=
      if right < n && c (l.getD cand defFlight) (l.getD right defFlight) then right else cand
    if largest = i then l
    else siftDownFuel c fuel (listSwap l i largest) largest

/-- Sift-down entry point with sufficient fuel. -/
def siftDown (c : Flight → Flight → Bool) (l : List Flight) (i : Nat) : List Flight :=
  siftDownFuel c l.length l i

/-- `priority_queue::push`: append the new element and sift it up. -/
def heapPush (c : Flight → Flight → Bool) (l : List Flight) (f : Flight) : List Flight :=
  siftUp c (l ++ [f]) l.length

/-- `priority_queue::top`: the root of the heap; `none` models the
undefined call on an empty queue (the `EmptyQueue` misuse of the
specification). -/
def heapTop (l : List Flight) : Option Flight :=
  l.head?

/-- `priority_queue::pop`: move the last element to the root, shrink
by one, and sift the new root down. -/
def heapPop (c : Flight → Flight → Bool) (l : List Flight) : List Flight :=
  match l with
  | [] => []
  | _ :: _ => siftDown c ((l.set 0 (l.getLastD defFlight)).dropLast) 0

/-- Fallible pop: `none` models the `EmptyQueue` misuse case of a pop
without a validated non-empty check. -/
def heapPopChecked (c : Flight → Flight → Bool) (l : List Flight) : Option (List Flight) :=
  match l with
  | [] => none
  | _ :: _ => some (heapPop c l)

/-- Auxiliary recursion for `heapDrain`, fuelled by the initial queue
length (each pop removes one element, so the fuel suffices). -/
def heapDrainGo (c : Flight → Flight → Bool) : Nat → List Flight → List Flight
  | 0, _ => []
  | _ + 1, [] => []
  | fuel + 1, f :: rest => f :: heapDrainGo c fuel (heapPop c (f :: rest))

/-- Pop the whole queue in order: the sequence in which flights reach
dispatchers that repeatedly take the top element under the queue
lock. -/
def heapDrain (c : Flight → Flight → Bool) (l : List Flight) : List Flight :=
  heapDrainGo c l.length l

/-- Resource slot of class `Runway`: stable id and the availability
flag, the only mutable field, guarded in the source by the slot's own
mutex (each of its two operations below is one critical section). -/
structure RunwayState where
  id : Int
  isAvailable : Bool
deriving DecidableEq

/-- Default runway, mirroring the `Runway()` default constructor
(id 0, available); used only as the out-of-range default of list
indexing. -/
def defRunway : RunwayState :=
  { id := 0, isAvailable := true }

/-- `Runway::assignFlight`: under the slot lock, atomically take the
slot when it is available; the boolean reports success. -/
def Runway.assignFlight (r : RunwayState) : RunwayState × Bool :=
  if r.isAvailable then ({ r with isAvailable := false }, true) else (r, false)

/-- `Runway::release`: under the slot lock, mark the slot available
(and notify one waiter in the source). -/
def Runway.release (r : RunwayState) : RunwayState :=
  { r with isAvailable := true }

/-- The shared state owned by `AirportManager`: the runway pool, the
flight queue in heap layout, and the shutdown flag.  Queue and flag
are guarded by `queueMutex` in the source, so every step function
below that reads both is one critical section. -/
structure ManagerState where
  runways : List RunwayState
  flightQueue : List Flight
  isShutdown : Bool
deriving DecidableEq

/-- Apply `Runway::release` to the runway at the given zero-based
index of the pool, as `runways[runwayId - 1].release()` does. -/
def releaseRunway (rs : List RunwayState) (idx : Nat) : List RunwayState :=
  rs.set idx (Runway.release (rs.getD idx defRunway))

/-- `AirportManager::addFlight`: take the queue lock, push the flight,
and call `queueCV.notify_one()`; the boolean of the result records
that the wake signal was issued.  The source performs no shutdown
check in this function. -/
def AirportManager.addFlight (s : ManagerState) (f : Flight) : ManagerState × Bool :=
  ({ s with flightQueue := heapPush FlightComparator s.flightQueue f }, true)

/-- The predicate of `queueCV.wait` in `processRunway`: if the queue
is empty return `isShutdown`; otherwise the source binds the head of
the queue (a dead binding, the time comparison is commented out) and
again returns `isShutdown`. -/
def waitPredicate (s : ManagerState) : Bool :=
  if s.flightQueue.isEmpty then s.isShutdown
  else s.isShutdown

/-- Operations a dispatcher iteration performs on its runway slot. -/
inductive RunwayOp where
  | acquire : RunwayOp
  | release : RunwayOp
deriving DecidableEq

/-- Outcome of one iteration of the dispatcher loop in
`processRunway`. -/
inductive StepResult where
  | blocked : StepResult
  | terminated : StepResult
  | looped : StepResult
  | processed : Flight → ManagerState → List RunwayOp → Int → StepResult
  | error : StepResult
deriving DecidableEq

/-- One iteration of the `while (true)` loop of
`AirportManager::processRunway` for the dispatcher bound to runway
`runwayId` (one-based, as in the source): block while the wait
predicate is false; exit when shutdown is requested and the queue is
empty; otherwise, if the queue is non-empty, read the top flight and,
only when shutdown is requested, pop it, unlock the queue, sleep for
the scaled processing time and call `release` on the runway.
`processed f s' ops t` carries the popped flight (whose status the
source never modifies), the shared state after the iteration, the
runway operations performed, and the real sleep duration in
seconds. -/
def dispatcherStep (runwayId : Nat) (s : ManagerState) : StepResult :=
  if waitPredicate s = false then
    StepResult.blocked
  else if s.isShutdown && s.flightQueue.isEmpty then
    StepResult.terminated
  else if s.flightQueue.isEmpty then
    StepResult.looped
  else
    match heapTop s.flightQueue with
    | none => StepResult.error
    | some flight =>
      if s.isShutdown then
        match heapPopChecked FlightComparator s.flightQueue with
        | none => StepResult.error
        | some q =>
          StepResult.processed flight
            { s with flightQueue := q, runways := releaseRunway s.runways (runwayId - 1) }
            [RunwayOp.release]
            (processingTime flight)
      else StepResult.looped

/-- Whether a dispatcher iteration hit the `EmptyQueue` error branch. -/
def stepIsError (r : StepResult) : Bool :=
  match r with
  | StepResult.error => true
  | _ => false

/-- Flight 1, arrival, priority 1, 09:00 — flight A of the ordering
scenario in section 8 of the specification. -/
def flightA : Flight := Flight.create 1 "arrival" 1 "09:00"

/-- Flight 2, arrival, priority 2, 09:00 — flight B of the ordering
scenario. -/
def flightB : Flight := Flight.create 2 "arrival" 2 "09:00"

/-- Flight 3, departure, priority 2, 09:10 — the outside-tolerance
partner of the tie-break scenario. -/
def flightC : Flight := Flight.create 3 "departure" 2 "09:10"

/-- One runway, one queued flight, shutdown not requested. -/
def sIdle : ManagerState :=
  { runways := [{ id := 1, isAvailable := true }], flightQueue := [flightA], isShutdown := false }

/-- One runway, one queued flight, shutdown requested. -/
def sShut : ManagerState :=
  { runways := [{ id := 1, isAvailable := true }], flightQueue := [flightA], isShutdown := true }

/-- The state after the dispatcher of runway 1 processes the one
queued flight of `sShut`. -/
def sAfter : ManagerState :=
  { runways := [{ id := 1, isAvailable := true }], flightQueue := [], isShutdown := true }

/-- No runways, empty queue, shutdown requested. -/
def sDown : ManagerState :=
  { runways := [], flightQueue := [], isShutdown := true }

/-- The difference of two integers has the same absolute value in
either order. -/
theorem natAbs_swap (a b : Int) : (a - b).natAbs = (b - a).natAbs := by
  rw [← Int.natAbs_neg, neg_sub]

/-- The swap of two list positions keeps the length. -/
theorem length_listSwap (l : List Flight) (i j : Nat) :
    (listSwap l i j).length = l.length := by
  simp [listSwap]

/-- The swap of two in-range list positions keeps every element of the
list present. -/
theorem mem_listSwap_of_mem (l : List Flight) (i j : Nat) (hi : i < l.length)
    (hj : j < l.length) (x : Flight) (hx : x ∈ l) : x ∈ listSwap l i j := by
  obtain ⟨k, hk, hkx⟩ := List.mem_iff_getElem.1 hx
  unfold listSwap
  by_cases hki : k = i
  · subst hki
    apply List.mem_iff_getElem.2
    refine ⟨j, by simpa using hj, ?_⟩
    rw [List.getElem_set_self, List.getD_eq_getElem l defFlight hk]
    exact hkx
  · by_cases hkj : k = j
    · subst hkj
      apply List.mem_iff_getElem.2
      refine ⟨i, by simpa using hi, ?_⟩
      rw [List.getElem_set_ne hki, List.getElem_set_self,
        List.getD_eq_getElem l defFlight hk]
      exact hkx
    · apply List.mem_iff_getElem.2
      refine ⟨k, by simpa using hk, ?_⟩
      rw [List.getElem_set_ne (fun h => hkj h.symm), List.getElem_set_ne (fun h => hki h.symm)]
      exact hkx

/-- Sifting up keeps the length of the heap. -/
theorem length_siftUpFuel (c : Flight → Flight → Bool) :
    ∀ (fuel : Nat) (l : List Flight) (i : Nat), (siftUpFuel c fuel l i).length = l.length := by
  intro fuel
  induction fuel with
  | zero => intro l i; rfl
  | succ fuel ih =>
    intro l i
    match i with
    | 0 => rfl
    | i + 1 =>
      simp only [siftUpFuel]
      split
      · rw [ih, length_listSwap]
      · rfl

/-- Sifting up keeps every element of the heap present. -/
theorem mem_siftUpFuel_of_mem (c : Flight → Flight → Bool) :
    ∀ (fuel : Nat) (l : List Flight) (i : Nat), i < l.length →
      ∀ x ∈ l, x ∈ siftUpFuel c fuel l i := by
  intro fuel
  induction fuel with
  | zero => intro l i _ x hx; exact hx
  | succ fuel ih =>
    intro l i hi x hx
    match i with
    | 0 => exact hx
    | i + 1 =>
      simp only [siftUpFuel]
      split
      · apply ih
        · rw [length_listSwap]; omega
        · exact mem_listSwap_of_mem l (i / 2) (i + 1) (by omega) hi x hx
      · exact hx

/-- A pushed flight is present in the queue afterwards. -/
theorem mem_heapPush_self (c : Flight → Flight → Bool) (l : List Flight) (f : Flight) :
    f ∈ heapPush c l f := by
  unfold heapPush siftUp
  apply mem_siftUpFuel_of_mem
  · simp
  · simp

/-- A push grows the queue by exactly one element. -/
theorem length_heapPush (c : Flight → Flight → Bool) (l : List Flight) (f : Flight) :
    (heapPush c l f).length = l.length + 1 := by
  unfold heapPush siftUp
  rw [length_siftUpFuel]
  simp

/-- Pushing onto the empty queue. -/
theorem heapPush_nil (c : Flight → Flight → Bool) (f : Flight) : heapPush c [] f = [f] := rfl

/-- Pushing a second flight: the comparator decides which of the two
ends up at the root of the heap. -/
theorem heapPush_pair (c : Flight → Flight → Bool) (x y : Flight) :
    heapPush c [x] y = if c x y then [y, x] else [x, y] := by
  by_cases h : c x y = true <;> simp [heapPush, siftUp, siftUpFuel, listSwap, h]

/-- Draining a two-element heap pops the root first, then the other
element. -/
theorem heapDrain_pair (c : Flight → Flight → Bool) (x y : Flight) :
    heapDrain c [x, y] = [x, y] := rfl

/-- The comparator is false when the times are within tolerance and
the priority comparison fails. -/
theorem fc_false_of_tol (f g : Flight)
    (htol : (f.timeInMinutes - g.timeInMinutes).natAbs ≤ 5)
    (hp : ¬ f.priority < g.priority) : FlightComparator f g = false := by
  simp only [FlightComparator]
  rw [if_pos htol]
  exact decide_eq_false hp

/-- The comparator is true when the times are within tolerance and the
priority comparison holds. -/
theorem fc_true_of_tol (f g : Flight)
    (htol : (f.timeInMinutes - g.timeInMinutes).natAbs ≤ 5)
    (hp : f.priority < g.priority) : FlightComparator f g = true := by
  simp only [FlightComparator]
  rw [if_pos htol]
  exact decide_eq_true hp

/-- The comparator is false when the times are far apart and the first
time is not later. -/
theorem fc_false_of_far (f g : Flight)
    (hfar : ¬ (f.timeInMinutes - g.timeInMinutes).natAbs ≤ 5)
    (ht : ¬ f.timeInMinutes > g.timeInMinutes) : FlightComparator f g = false := by
  simp only [FlightComparator]
  rw [if_neg hfar]
  exact decide_eq_false ht

/-- The comparator is true when the times are far apart and the first
time is later. -/
theorem fc_true_of_far (f g : Flight)
    (hfar : ¬ (f.timeInMinutes - g.timeInMinutes).natAbs ≤ 5)
    (ht : f.timeInMinutes > g.timeInMinutes) : FlightComparator f g = true := by
  simp only [FlightComparator]
  rw [if_neg hfar]
  exact decide_eq_true ht

/-- Inversion of a processing iteration: a dispatcher that reports
`processed f s' ops t` took `f` from the head of the queue (so `f` was
queued), performed exactly one release on its runway, slept for the
scaled duration of `f`, and left the state with the queue popped and
the runway released. -/
theorem dispatcherStep_processed_inv (rid : Nat) (s : ManagerState) (f : Flight)
    (s' : ManagerState) (ops : List RunwayOp) (t : Int)
    (h : dispatcherStep rid s = StepResult.processed f s' ops t) :
    f = s.flightQueue.headD defFlight ∧ f ∈ s.flightQueue ∧ ops = [RunwayOp.release] ∧
    t = processingTime f ∧
    s' = { s with flightQueue := heapPop FlightComparator s.flightQueue,
                  runways := releaseRunway s.runways (rid - 1) } := by
  cases hq : s.flightQueue with
  | nil =>
    cases hs : s.isShutdown <;>
      simp [dispatcherStep, waitPredicate, hq, hs] at h
  | cons g gs =>
    cases hs : s.isShutdown with
    | false =>
      simp [dispatcherStep, waitPredicate, hq, hs] at h
    | true =>
      simp only [dispatcherStep, waitPredicate, hq, hs, heapTop, heapPopChecked,
        List.isEmpty_cons, List.head?_cons, Bool.and_false, Bool.true_and,
        if_false, if_true, reduceCtorEq, ite_false, ite_true] at h
      simp only [StepResult.processed.injEq] at h
      obtain ⟨h1, h2, h3, h4⟩ := h
      subst h1
      refine ⟨by simp [hq], by simp [hq], h3.symm, h4.symm, h2.symm⟩

/-- C1 (counterexample): with one flight queued and shutdown not
requested, the wait predicate evaluates to false and the dispatcher
iteration stays blocked — it does not wake, pop or process, contrary
to the claim. -/
theorem dispatchWithoutShutdown_cex :
    sIdle.flightQueue = [flightA] ∧ sIdle.isShutdown = false ∧
    waitPredicate sIdle = false ∧ dispatcherStep 1 sIdle = StepResult.blocked := by
  decide

/-- C1 (amended): the wait predicate of `processRunway` evaluates to
`isShutdown` regardless of the queue, so dispatching a queued flight
does require shutdown to have been requested; once shutdown is
requested and the queue is non-empty, the dispatcher pops the head
flight under the queue lock and processes it. -/
theorem dispatchRequiresShutdown :
    (∀ s : ManagerState, waitPredicate s = s.isShutdown) ∧
    (∀ (rid : Nat) (s : ManagerState), s.isShutdown = true → s.flightQueue.isEmpty = false →
      dispatcherStep rid s =
        StepResult.processed (s.flightQueue.headD defFlight)
          { s with flightQueue := heapPop FlightComparator s.flightQueue,
                   runways := releaseRunway s.runways (rid - 1) }
          [RunwayOp.release] (processingTime (s.flightQueue.headD defFlight))) := by
  constructor
  · intro s
    simp [waitPredicate]
  · intro rid s hs hne
    cases hq : s.flightQueue with
    | nil => rw [hq] at hne; simp at hne
    | cons g gs =>
      simp [dispatcherStep, waitPredicate, hq, hs, heapTop, heapPopChecked]

/-- C1 (witness): the amended theorem applied to the one-flight
shutdown state. -/
theorem dispatchRequiresShutdown_w :
    dispatcherStep 1 sShut =
      StepResult.processed (sShut.flightQueue.headD defFlight)
        { sShut with flightQueue := heapPop FlightComparator sShut.flightQueue,
                     runways := releaseRunway sShut.runways (1 - 1) }
        [RunwayOp.release] (processingTime (sShut.flightQueue.headD defFlight)) :=
  dispatchRequiresShutdown.2 1 sShut (by decide) (by decide)

/-- C2 (counterexample): flights A (priority 1) and B (priority 2)
with the same 09:00 requested time; the queue holding both dispatches
B strictly before A, so the comparator does not order the lower
priority integer ahead. -/
theorem lowerPriorityValueFirst_cex :
    flightA.priority = 1 ∧ flightB.priority = 2 ∧
    flightA.timeInMinutes = flightB.timeInMinutes ∧
    heapDrain FlightComparator
        (heapPush FlightComparator (heapPush FlightComparator [] flightA) flightB)
      = [flightB, flightA] := by
  decide

/-- C2 (amended): within the tolerance window the comparator orders
the flight with the HIGHER priority integer ahead: whichever of the
two submission orders is used, the queue holding both dispatches the
higher-priority-integer flight first. -/
theorem priorityValueHigherFirst (f g : Flight)
    (htol : (f.timeInMinutes - g.timeInMinutes).natAbs ≤ 5)
    (hp : g.priority < f.priority) :
    heapDrain FlightComparator
        (heapPush FlightComparator (heapPush FlightComparator [] f) g) = [f, g] ∧
    heapDrain FlightComparator
        (heapPush FlightComparator (heapPush FlightComparator [] g) f) = [f, g] := by
  have htol' : (g.timeInMinutes - f.timeInMinutes).natAbs ≤ 5 := by
    rw [natAbs_swap]; exact htol
  have hfg : FlightComparator f g = false := fc_false_of_tol f g htol (by omega)
  have hgf : FlightComparator g f = true := fc_true_of_tol g f htol' hp
  refine ⟨?_, ?_⟩
  · rw [heapPush_nil, heapPush_pair]
    simp [hfg, heapDrain_pair]
  · rw [heapPush_nil, heapPush_pair]
    simp [hgf, heapDrain_pair]

/-- C2 (witness): the amended theorem applied to flights B and A of
the counterexample. -/
theorem priorityValueHigherFirst_w :
    heapDrain FlightComparator
        (heapPush FlightComparator (heapPush FlightComparator [] flightB) flightA)
      = [flightB, flightA] ∧
    heapDrain FlightComparator
        (heapPush FlightComparator (heapPush FlightComparator [] flightA) flightB)
      = [flightB, flightA] :=
  priorityValueHigherFirst flightB flightA (by decide) (by decide)

/-- C3 (counterexample): the comparator is not transitive, hence not a
strict weak ordering: with times 0, 5, 10 and priorities 1, 2, 3 the
first two pairs compare within tolerance by priority but the outer
pair compares by time. -/
theorem comparatorTransitivity_cex :
    FlightComparator ⟨1, "arrival", 1, 0, "waiting"⟩ ⟨2, "arrival", 2, 5, "waiting"⟩ = true ∧
    FlightComparator ⟨2, "arrival", 2, 5, "waiting"⟩ ⟨3, "arrival", 3, 10, "waiting"⟩ = true ∧
    FlightComparator ⟨1, "arrival", 1, 0, "waiting"⟩ ⟨3, "arrival", 3, 10, "waiting"⟩ = false := by
  decide

/-- C3 (amended): the two-level comparator is irreflexive and
asymmetric, but it is neither transitive nor is its incomparability
relation transitive, so it is not a strict weak ordering. -/
theorem comparatorIrreflAsymmNotTrans :
    (∀ f : Flight, FlightComparator f f = false) ∧
    (∀ f g : Flight, (FlightComparator f g && FlightComparator g f) = false) ∧
    (∃ f g h : Flight, FlightComparator f g = true ∧ FlightComparator g h = true ∧
      FlightComparator f h = false) ∧
    (∃ f g h : Flight,
      (FlightComparator f g || FlightComparator g f) = false ∧
      (FlightComparator g h || FlightComparator h g) = false ∧
      (FlightComparator f h || FlightComparator h f) = true) := by
  refine ⟨?_, ?_, ?_, ?_⟩
  · intro f
    exact fc_false_of_tol f f (by simp) (lt_irrefl _)
  · intro f g
    by_cases htol : (f.timeInMinutes - g.timeInMinutes).natAbs ≤ 5
    · have htol' : (g.timeInMinutes - f.timeInMinutes).natAbs ≤ 5 := by
        rw [natAbs_swap]; exact htol
      by_cases hp : f.priority < g.priority
      · rw [fc_false_of_tol g f htol' (by omega)]
        simp
      · rw [fc_false_of_tol f g htol hp]
        simp
    · have hfar' : ¬ (g.timeInMinutes - f.timeInMinutes).natAbs ≤ 5 := by
        rw [natAbs_swap]; exact htol
      by_cases ht : f.timeInMinutes > g.timeInMinutes
      · rw [fc_false_of_far g f hfar' (by omega)]
        simp
      · rw [fc_false_of_far f g htol ht]
        simp
  · exact ⟨⟨1, "arrival", 1, 0, "waiting"⟩, ⟨2, "arrival", 2, 5, "waiting"⟩,
      ⟨3, "arrival", 3, 10, "waiting"⟩, by decide, by decide, by decide⟩
  · exact ⟨⟨1, "arrival", 2, 0, "waiting"⟩, ⟨2, "arrival", 2, 3, "waiting"⟩,
      ⟨3, "arrival", 2, 6, "waiting"⟩, by decide, by decide, by decide⟩

/-- C4 (counterexample): with shutdown already requested, `addFlight`
still inserts the flight into the admission queue and still issues the
wake signal — nothing fails and nothing is discarded. -/
theorem addFlightNoShutdownCheck_cex :
    sDown.isShutdown = true ∧
    (AirportManager.addFlight sDown flightA).1.flightQueue = [flightA] ∧
    (AirportManager.addFlight sDown flightA).2 = true := by
  decide

/-- C4 (amended): `addFlight` performs no shutdown check: even after
shutdown has begun it pushes the flight into the admission queue (the
flight is present afterwards and the queue grows by one) and wakes a
dispatcher, exactly as before shutdown; no AfterShutdown error
exists. -/
theorem addFlightAcceptsAfterShutdown (s : ManagerState) (f : Flight)
    (_hs : s.isShutdown = true) :
    f ∈ (AirportManager.addFlight s f).1.flightQueue ∧
    (AirportManager.addFlight s f).1.flightQueue.length = s.flightQueue.length + 1 ∧
    (AirportManager.addFlight s f).2 = true := by
  refine ⟨?_, ?_, rfl⟩
  · exact mem_heapPush_self FlightComparator s.flightQueue f
  · exact length_heapPush FlightComparator s.flightQueue f

/-- C4 (witness): the amended theorem applied to the empty shutdown
state. -/
theorem addFlightAcceptsAfterShutdown_w :
    flightA ∈ (AirportManager.addFlight sDown flightA).1.flightQueue ∧
    (AirportManager.addFlight sDown flightA).1.flightQueue.length = sDown.flightQueue.length + 1 ∧
    (AirportManager.addFlight sDown flightA).2 = true :=
  addFlightAcceptsAfterShutdown sDown flightA (by decide)

/-- C5 (counterexample): the dispatcher processes the queued flight to
the end of its iteration, yet the flight it reports still carries
status waiting, not completed — the status field is never updated. -/
theorem statusNotCompleted_cex :
    dispatcherStep 1 sShut = StepResult.processed flightA sAfter [RunwayOp.release] 5 ∧
    flightA.status = "waiting" ∧ (flightA.status == "completed") = false := by
  decide

/-- C5 (amended): a flight is created with status waiting and the
dispatcher never modifies the status field, so a flight processed to
the end of an iteration still has status waiting (it is never set to
assigned or completed). -/
theorem statusStaysWaiting :
    (∀ (id : Int) (ty : String) (pr : Int) (ts : String),
      (Flight.create id ty pr ts).status = "waiting") ∧
    (∀ (rid : Nat) (s : ManagerState) (f : Flight) (s' : ManagerState)
        (ops : List RunwayOp) (t : Int),
      (∀ g ∈ s.flightQueue, g.status = "waiting") →
      dispatcherStep rid s = StepResult.processed f s' ops t →
      f.status = "waiting") := by
  constructor
  · intro id ty pr ts
    rfl
  · intro rid s f s' ops t hall h
    obtain ⟨_, hmem, _, _, _⟩ := dispatcherStep_processed_inv rid s f s' ops t h
    exact hall f hmem

/-- C5 (witness): the amended theorem applied to the constructor and
to the one-flight shutdown state. -/
theorem statusStaysWaiting_w :
    (Flight.create 9 "departure" 3 "12:34").status = "waiting" ∧
    flightA.status = "waiting" :=
  ⟨statusStaysWaiting.1 9 "departure" 3 "12:34",
   statusStaysWaiting.2 1 sShut flightA sAfter [RunwayOp.release] 5 (by decide) (by decide)⟩

/-- C6 (counterexample): a full processing iteration performs no
acquire on its runway — `assignFlight` is never called — and the
runway's availability flag is true before and after, so the flight was
processed without the dispatcher ever holding the slot. -/
theorem runwayNeverAcquired_cex :
    dispatcherStep 1 sShut = StepResult.processed flightA sAfter [RunwayOp.release] 5 ∧
    decide (RunwayOp.acquire ∈ [RunwayOp.release]) = false ∧
    (sShut.runways.getD 0 defRunway).isAvailable = true ∧
    (sAfter.runways.getD 0 defRunway).isAvailable = true := by
  decide

/-- C6 (amended): the dispatcher never acquires a runway through the
slot's try-acquire: every processing iteration performs exactly one
release on its runway and no acquire, so no flight is ever marked
assigned against a slot (the at-most-one-flight-per-runway property
holds vacuously, and per-runway exclusivity comes from the single
dedicated dispatcher thread of each runway). -/
theorem processWithoutAcquire (rid : Nat) (s : ManagerState) (f : Flight)
    (s' : ManagerState) (ops : List RunwayOp) (t : Int)
    (h : dispatcherStep rid s = StepResult.processed f s' ops t) :
    ops = [RunwayOp.release] ∧ decide (RunwayOp.acquire ∈ ops) = false := by
  obtain ⟨_, _, hops, _, _⟩ := dispatcherStep_processed_inv rid s f s' ops t h
  subst hops
  exact ⟨rfl, by decide⟩

/-- C6 (witness): the amended theorem applied to the one-flight
shutdown state. -/
theorem processWithoutAcquire_w :
    ([RunwayOp.release] : List RunwayOp) = [RunwayOp.release] ∧
    decide (RunwayOp.acquire ∈ [RunwayOp.release]) = false :=
  processWithoutAcquire 1 sShut flightA sAfter [RunwayOp.release] 5 (by decide)

/-- C7: for two flights of equal priority whose requested times are
more than five minutes apart, the earlier flight sits at the head of
the queue (whichever submission order was used) and dispatches
first. -/
theorem earlierTimeFirstOutsideTolerance (f g : Flight)
    (_hp : f.priority = g.priority)
    (hfar : 5 < (f.timeInMinutes - g.timeInMinutes).natAbs)
    (ht : f.timeInMinutes < g.timeInMinutes) :
    heapTop (heapPush FlightComparator (heapPush FlightComparator [] f) g) = some f ∧
    heapTop (heapPush FlightComparator (heapPush FlightComparator [] g) f) = some f ∧
    heapDrain FlightComparator
        (heapPush FlightComparator (heapPush FlightComparator [] f) g) = [f, g] ∧
    heapDrain FlightComparator
        (heapPush FlightComparator (heapPush FlightComparator [] g) f) = [f, g] := by
  have hfar' : 5 < (g.timeInMinutes - f.timeInMinutes).natAbs := by
    rw [natAbs_swap]; exact hfar
  have hfg : FlightComparator f g = false :=
    fc_false_of_far f g (Nat.not_le.mpr hfar) (not_lt.mpr ht.le)
  have hgf : FlightComparator g f = true :=
    fc_true_of_far g f (Nat.not_le.mpr hfar') ht
  refine ⟨?_, ?_, ?_, ?_⟩ <;> rw [heapPush_nil, heapPush_pair]
  · simp [hfg, heapTop]
  · simp [hgf, heapTop]
  · simp [hfg, heapDrain_pair]
  · simp [hgf, heapDrain_pair]

/-- C7 (witness): the theorem applied to the 09:00 and 09:10 flights
of equal priority. -/
theorem earlierTimeFirstOutsideTolerance_w :
    heapTop (heapPush FlightComparator (heapPush FlightComparator [] flightB) flightC)
      = some flightB ∧
    heapTop (heapPush FlightComparator (heapPush FlightComparator [] flightC) flightB)
      = some flightB ∧
    heapDrain FlightComparator
        (heapPush FlightComparator (heapPush FlightComparator [] flightB) flightC)
      = [flightB, flightC] ∧
    heapDrain FlightComparator
        (heapPush FlightComparator (heapPush FlightComparator [] flightC) flightB)
      = [flightB, flightC] :=
  earlierTimeFirstOutsideTolerance flightB flightC (by decide) (by decide) (by decide)

/-- C8: a dispatcher iteration reads the top and pops only inside the
branch that has verified, in the same critical section, that the queue
is non-empty, so the embedded fallible top and pop never return their
EmptyQueue error and the iteration never yields the error outcome. -/
theorem popNeverErrors (rid : Nat) (s : ManagerState) :
    stepIsError (dispatcherStep rid s) = false := by
  cases hq : s.flightQueue with
  | nil =>
    cases hs : s.isShutdown <;>
      simp [dispatcherStep, waitPredicate, hq, hs, stepIsError]
  | cons g gs =>
    cases hs : s.isShutdown <;>
      simp [dispatcherStep, waitPredicate, hq, hs, heapTop, heapPopChecked, stepIsError]

/-- C9: the sleep duration of every processing iteration equals the
category base duration divided by the time-compression factor in exact
integer arithmetic — multiplying back by the factor recovers the base
— and with base 300 and factor 60 it is exactly 5 real seconds. -/
theorem scaledDurationExact (rid : Nat) (s : ManagerState) (f : Flight)
    (s' : ManagerState) (ops : List RunwayOp) (t : Int)
    (h : dispatcherStep rid s = StepResult.processed f s' ops t) :
    t * TIME_SCALE_FACTOR = (if f.type = "takeoff" then TAKEOFF_TIME else LANDING_TIME) ∧
    t = 5 := by
  obtain ⟨_, _, _, ht, _⟩ := dispatcherStep_processed_inv rid s f s' ops t h
  subst ht
  by_cases htype : f.type = "takeoff"
  · simp only [processingTime, if_pos htype]
    exact ⟨by decide, by decide⟩
  · simp only [processingTime, if_neg htype]
    exact ⟨by decide, by decide⟩

/-- C9 (witness): the theorem applied to the one-flight shutdown
state. -/
theorem scaledDurationExact_w :
    (5 : Int) * TIME_SCALE_FACTOR
      = (if flightA.type = "takeoff" then TAKEOFF_TIME else LANDING_TIME) ∧
    (5 : Int) = 5 :=
  scaledDurationExact 1 sShut flightA sAfter [RunwayOp.release] 5 (by decide)

/-- C10: for flights whose category is one of the two accepted input
categories, arrival or departure, the takeoff branch of the duration
selection is never taken and both categories receive exactly the same
processing duration. -/
theorem categoryNoDurationEffect (f g : Flight)
    (hf : f.type = "arrival" ∨ f.type = "departure")
    (hg : g.type = "arrival" ∨ g.type = "departure") :
    decide (f.type = "takeoff") = false ∧ processingTime f = processingTime g := by
  rcases hf with hf | hf <;> rcases hg with hg | hg <;>
    simp [processingTime, hf, hg]

/-- C10 (witness): the theorem applied to an arrival flight and a
departure flight. -/
theorem categoryNoDurationEffect_w :
    decide (flightA.type = "takeoff") = false ∧
    processingTime flightA = processingTime flightC :=
  categoryNoDurationEffect flightA flightC (by decide) (by decide)
